import Mathlib

/-!
Verification of the `genAI_prompt_submitter` repository: a shallow embedding of
the three prompt-submitter scripts (`gemini_api.py`, `xai_prompt_submitter.py`,
`ollama_prompt_submitter.py`) and proofs about their behaviour.

Modelling conventions:
* Strings are Lean `String`s; Python f-string concatenation becomes `++`.
* External library calls (the network call of each backend, Python's `int()`
  applied to the operator's line of input, the filesystem) are oracles passed
  in as explicit arguments: the network call is an `Except` value (`.error e`
  models the call raising an exception whose `str()` is `e`), the parsed
  selection is an `Option Int` (`none` models `int()` raising `ValueError`),
  and the prompts directory is a list of file names.
* `sys.exit(k)` becomes an explicit outcome carrying the exit code `k`.
* Logging and `print` calls have no observable effect in the model.
* File writes are recorded as `(path, content)` pairs; the OS-level write is
  assumed to succeed (the scripts catch and log write errors, a path which
  involves no computation being verified here).
-/

/-- `leadsCh pat s` is true iff the char list `pat` is an initial segment of
`s`.  Used to model Python's `str.startswith` / `str.endswith`. -/
def leadsCh : List Char → List Char → Bool
  | [], _ => true
  | _ :: _, [] => false
  | p :: ps, c :: cs => p == c && leadsCh ps cs

/-- Python `s.startswith(pat)`. -/
def strLeads (pat s : String) : Bool := leadsCh pat.data s.data

/-- Python `s.endswith(pat)`. -/
def strTrails (pat s : String) : Bool := leadsCh pat.data.reverse s.data.reverse

/-- Python truthiness of an optional string (`None` and `""` are falsy):
models idioms such as `if not self.api_key` and `if not prompt_name`. -/
def pyTruthy : Option String → Bool
  | none => false
  | some s => !(s == "")

/-- `pathlib.Path.stem`: the final path component without its last suffix. -/
def fileStem (p : String) : String :=
  let base := (p.splitOn "/").getLastD ""
  let parts := base.splitOn "."
  if parts.length ≤ 1 then base else String.intercalate "." parts.dropLast

/-- `sub` occurs as a contiguous substring of `s`. -/
def hasSubstr (sub s : String) : Prop := ∃ pre post, s = pre ++ sub ++ post

/-- `l` occurs as one whole line of `s`: `l` holds no newline, and `s` has the
shape `pre ++ l ++ "\n" ++ post` where `pre` is empty or itself ends with a
newline (so `l` starts at the beginning of a line). -/
def isLine (l s : String) : Prop :=
  Char.ofNat 10 ∉ l.data ∧
    ∃ pre post, s = pre ++ (l ++ "\n") ++ post ∧ (pre = "" ∨ ∃ q, pre = q ++ "\n")

/-- `s` begins with the line `---`. -/
def beginsDashes (s : String) : Prop := ∃ rest, s = "---\n" ++ rest

/-- The tail of `s` is the header-closing `---` line, then exactly one blank
line, then `body` byte-for-byte (nothing between the blank line and `body`). -/
def closesWithBody (s body : String) : Prop :=
  ∃ pre, s = pre ++ "---\n\n" ++ body ∧ (pre = "" ∨ ∃ q, pre = q ++ "\n")

/-! ## Prompt location (`find_prompt_file`, identical core in all three scripts) -/

/-- Outcome of `find_prompt_file`: either the path of the chosen prompt file,
or termination of the process via `sys.exit code`. -/
inductive FindOutcome where
  | found (path : String)
  | exited (code : Nat)
deriving DecidableEq, Repr

/-- The files `prompts_dir.glob("*.txt")` yields, given the directory's
entries `files`, as 1-indexable paths `prompts/<name>`. -/
def listedPrompts (files : List String) : List String :=
  (files.filter (fun f => strTrails ".txt" f)).map (fun f => "prompts/" ++ f)

/-- The interactive branch of `find_prompt_file`: list `*.txt` prompts, exit 1
when there are none, else consume one line of operator input.  `sel` is the
result of Python's `int()` on that line (`none`: `ValueError`).  A selection
`i` is accepted iff `0 ≤ i - 1 < N`; anything else exits 1 — there is no retry
loop, a single input is consumed. -/
def interactiveSelect (files : List String) (sel : Option Int) : FindOutcome :=
  let prompts := listedPrompts files
  if prompts.isEmpty then .exited 1
  else
    match sel with
    | some i =>
        let idx : Int := i - 1
        if 0 ≤ idx ∧ idx < (prompts.length : Int) then .found (prompts.getD idx.toNat "")
        else .exited 1
    | none => .exited 1

/-- Core of `find_prompt_file`, line-identical in the three scripts: a falsy
(`None` or empty) prompt name selects interactively; otherwise
`prompts/<name>.txt` is returned if present in the directory, else exit 1. -/
def findPromptCore (files : List String) (promptName : Option String)
    (sel : Option Int) : FindOutcome :=
  match promptName with
  | none => interactiveSelect files sel
  | some name =>
      if name == "" then interactiveSelect files sel
      else if files.contains (name ++ ".txt") then .found ("prompts/" ++ name ++ ".txt")
      else .exited 1

/-- `find_prompt_file` together with its directory side effect:
`ensuredPromptsDir` records whether the function called
`os.makedirs(prompts_dir, exist_ok=True)` before listing/resolving. -/
structure FindTrace where
  ensuredPromptsDir : Bool
  outcome : FindOutcome
deriving DecidableEq, Repr

/-- `find_prompt_file` of `gemini_api.py`: no directory creation. -/
def geminiFindPromptFile (files : List String) (promptName : Option String)
    (sel : Option Int) : FindTrace :=
  ⟨false, findPromptCore files promptName sel⟩

/-- `find_prompt_file` of `xai_prompt_submitter.py`: no directory creation. -/
def xaiFindPromptFile (files : List String) (promptName : Option String)
    (sel : Option Int) : FindTrace :=
  ⟨false, findPromptCore files promptName sel⟩

/-- `find_prompt_file` of `ollama_prompt_submitter.py`: unconditionally calls
`os.makedirs(prompts_dir, exist_ok=True)` first, then runs the common core. -/
def ollamaFindPromptFile (files : List String) (promptName : Option String)
    (sel : Option Int) : FindTrace :=
  ⟨true, findPromptCore files promptName sel⟩

/-! ## Clients and `submit_prompt` -/

/-- Default of the `--model` option in `gemini_api.py`'s `main`, also the
default of `submit_prompt`'s `model` parameter. -/
def geminiDefaultModel : String := "gemini-2.5-flash-preview-04-17"

/-- The model identifier hard-coded in the header that
`GeminiPromptSubmitter.save_response` writes. -/
def geminiHeaderModel : String := "gemini-2.5-flash-preview-04-17"

/-- The model identifier hard-coded in `XAIPromptSubmitter.submit_prompt`'s
`chat.completions.create` call. -/
def xaiRequestModel : String := "grok-3-beta"

/-- Default of the `--model` option in `ollama_prompt_submitter.py`
(`DEFAULT_MODEL`). -/
def ollamaDefaultModel : String := "gemma3:12b-it-q8_0"

/-- The fixed simulated response of `GeminiPromptSubmitter.submit_prompt`. -/
def geminiSimResponse : String :=
  "# Gemini Response (Simulation)\n\nThis is a simulated response because the Gemini API client was not available."

/-- The fixed simulated response of `XAIPromptSubmitter.submit_prompt`. -/
def xaiSimResponse : String :=
  "# xAI Response (Simulation)\n\nThis is a simulated response because the xAI API client was not available."

/-- `GeminiPromptSubmitter.__init__`: `self.client` is non-`None` iff the key
is truthy and `genai.Client` raised nothing (init failure is caught and leaves
`self.client = None`). -/
def geminiHasClient (apiKey : Option String) (clientInitOk : Bool) : Bool :=
  pyTruthy apiKey && clientInitOk

/-- `XAIPromptSubmitter.__init__`: `self.client` is non-`None` iff the key is
truthy (the `OpenAI` constructor is modelled as succeeding; the script's
`except TypeError` fallback still produces a client). -/
def xaiHasClient (apiKey : Option String) : Bool := pyTruthy apiKey

/-- `GeminiPromptSubmitter.submit_prompt`.  `net` is the outcome of
`client.models.generate_content` (`.ok t`: `response.text` is `t`;
`.error e`: the call raised an exception with `str(e) = e`), consulted only
when a client exists. -/
def geminiSubmitPrompt (hasClient : Bool) (net : Except String String) : String :=
  if hasClient then
    match net with
    | .ok t => t
    | .error e => "# Gemini API Error\n\n```\n" ++ e ++ "\n```"
  else geminiSimResponse

/-- `XAIPromptSubmitter.submit_prompt`, same shape over the outcome of
`chat.completions.create`. -/
def xaiSubmitPrompt (hasClient : Bool) (net : Except String String) : String :=
  if hasClient then
    match net with
    | .ok t => t
    | .error e => "# xAI API Error\n\n```\n" ++ e ++ "\n```"
  else xaiSimResponse

/-- `OllamaPromptSubmitter.submit_prompt`.  `net` is the outcome of
`ollama.generate`: `.ok (some t)` is a response dict whose `"response"` key
holds `t`, `.ok none` a dict lacking that key (the `.get` default applies),
`.error e` a raised exception. -/
def ollamaSubmitPrompt (net : Except String (Option String)) : String :=
  match net with
  | .ok (some t) => t
  | .ok none => "No response generated."
  | .error e =>
      "# Ollama API Error\n\n```\n" ++ ("Error calling Ollama API: " ++ e) ++ "\n```"

/-! ## `save_response`: content of the written markdown file -/

/-- The metadata block of `GeminiPromptSubmitter.save_response`. -/
def geminiMetadata (promptName submissionTime : String) : String :=
  "---\n" ++ "prompt: " ++ promptName ++ "\n" ++ "submitted_at: " ++ submissionTime ++ "\n"
    ++ "model: " ++ geminiHeaderModel ++ "\n" ++ "---\n\n"

/-- The full file content `metadata + response` written by
`GeminiPromptSubmitter.save_response`. -/
def geminiSavedContent (response promptName submissionTime : String) : String :=
  geminiMetadata promptName submissionTime ++ response

/-- The metadata block of `XAIPromptSubmitter.save_response` (no model line). -/
def xaiMetadata (promptName submissionTime : String) : String :=
  "---\n" ++ "prompt: " ++ promptName ++ "\n" ++ "submitted_at: " ++ submissionTime ++ "\n"
    ++ "---\n\n"

/-- The full file content written by `XAIPromptSubmitter.save_response`. -/
def xaiSavedContent (response promptName submissionTime : String) : String :=
  xaiMetadata promptName submissionTime ++ response

/-- The metadata block of `OllamaPromptSubmitter.save_response`: the model
line (carrying `self.model`) comes first. -/
def ollamaMetadata (model promptName submissionTime : String) : String :=
  "---\n" ++ "model: " ++ model ++ "\n" ++ "prompt: " ++ promptName ++ "\n"
    ++ "submitted_at: " ++ submissionTime ++ "\n" ++ "---\n\n"

/-- The full file content written by `OllamaPromptSubmitter.save_response`. -/
def ollamaSavedContent (model response promptName submissionTime : String) : String :=
  ollamaMetadata model promptName submissionTime ++ response

/-! ## Ollama client construction (`OllamaPromptSubmitter.__init__`) -/

/-- One entry of `ollama.list()['models']`, keeping the two keys the script
reads: `model_info.get('model')` and `model_info.get('name')`. -/
structure ModelInfo where
  model : Option String
  name : Option String
deriving DecidableEq, Repr

/-- `model_info.get('model') or model_info.get('name', '')`: Python `or`
falls through on a falsy (absent or empty) first operand. -/
def modelInfoName (mi : ModelInfo) : String :=
  match mi.model with
  | some s => if s == "" then mi.name.getD "" else s
  | none => mi.name.getD ""

/-- The match test of `__init__`: catalog name equal to the requested model,
or starting with the requested model followed by the `:` tag separator. -/
def ollamaModelMatches (requested entryName : String) : Bool :=
  entryName == requested || strLeads (requested ++ ":") entryName

/-- Whether the loop over `response['models']` sets `model_found` (an absent
or empty `models` list is the empty catalog and finds nothing). -/
def ollamaModelFound (catalog : List ModelInfo) (requested : String) : Bool :=
  catalog.any (fun mi => ollamaModelMatches requested (modelInfoName mi))

/-- Observable result of `OllamaPromptSubmitter.__init__`: whether it
completed without raising, and whether `ollama.pull` was invoked. -/
structure OllamaInitTrace where
  ok : Bool
  pullAttempted : Bool
deriving DecidableEq, Repr

/-- `OllamaPromptSubmitter.__init__`.  `daemon` is the outcome of
`ollama.list()` (`.error`: the daemon is unreachable and the call raised);
`pullOk` is whether `ollama.pull`, if reached, succeeds.  Any exception in
the `try` block is re-raised, so `ok = false` models the constructor
raising. -/
def ollamaInit (requested : String) (daemon : Except String (List ModelInfo))
    (pullOk : Bool) : OllamaInitTrace :=
  match daemon with
  | .error _ => ⟨false, false⟩
  | .ok catalog =>
      if ollamaModelFound catalog requested then ⟨true, false⟩
      else ⟨pullOk, true⟩

/-! ## Command-line surface (the `add_argument` calls of each `main`) -/

/-- Option flags registered by `gemini_api.py`'s argument parser. -/
def geminiArgOptions : List String := ["--prompt", "--output", "--model"]

/-- Option flags registered by `xai_prompt_submitter.py`'s argument parser:
there is no `--model` option. -/
def xaiArgOptions : List String := ["--prompt", "--output"]

/-- Option flags registered by `ollama_prompt_submitter.py`'s argument
parser. -/
def ollamaArgOptions : List String := ["--prompt", "--output", "--model", "--list-models"]

/-- Parsed arguments of `gemini_api.py` (`--model` defaults to
`geminiDefaultModel` via argparse). -/
structure GeminiArgs where
  prompt : Option String
  output : Option String
  model : String
deriving DecidableEq, Repr

/-- Parsed arguments of `xai_prompt_submitter.py`: no model field exists. -/
structure XaiArgs where
  prompt : Option String
  output : Option String
deriving DecidableEq, Repr

/-- Parsed arguments of `ollama_prompt_submitter.py` (`--model` defaults to
`ollamaDefaultModel`, `--list-models` to `false`). -/
structure OllamaArgs where
  prompt : Option String
  output : Option String
  model : String
  listModels : Bool
deriving DecidableEq, Repr

/-! ## The `main` pipelines -/

/-- Observable result of one process invocation: the exit status, the output
file written (path and content), whether `read_prompt` ran, and the model
identifier sent over the network (`none` when no network submission
happened, e.g. simulation mode or early exit). -/
structure RunResult where
  exitCode : Nat
  written : Option (String × String)
  promptWasRead : Bool
  submittedModel : Option String
deriving DecidableEq, Repr

/-- `main` of `gemini_api.py`: locate the prompt, build the output path from
`ts` (the `%Y%m%d_%H%M%S` timestamp), construct the submitter, read the
prompt (content `promptContent`), submit with `args.model`, and save with
`tsFmt` (the `%Y-%m-%d %H:%M:%S` timestamp).  Every path past prompt
location ends in exit status 0. -/
def geminiMain (args : GeminiArgs) (apiKey : Option String) (clientInitOk : Bool)
    (files : List String) (sel : Option Int) (_promptContent : String)
    (net : Except String String) (ts tsFmt : String) : RunResult :=
  match (geminiFindPromptFile files args.prompt sel).outcome with
  | .exited c => ⟨c, none, false, none⟩
  | .found path =>
      let promptName := fileStem path
      let outputFile :=
        match args.output with
        | some o => o
        | none => "reports/gemini_" ++ promptName ++ "_" ++ ts ++ ".md"
      let hasClient := geminiHasClient apiKey clientInitOk
      let response := geminiSubmitPrompt hasClient net
      ⟨0, some (outputFile, geminiSavedContent response promptName tsFmt), true,
        if hasClient then some args.model else none⟩

/-- `main` of `xai_prompt_submitter.py`: same pipeline, no model argument —
a submission always uses `xaiRequestModel`. -/
def xaiMain (args : XaiArgs) (apiKey : Option String)
    (files : List String) (sel : Option Int) (_promptContent : String)
    (net : Except String String) (ts tsFmt : String) : RunResult :=
  match (xaiFindPromptFile files args.prompt sel).outcome with
  | .exited c => ⟨c, none, false, none⟩
  | .found path =>
      let promptName := fileStem path
      let outputFile :=
        match args.output with
        | some o => o
        | none => "reports/xai_" ++ promptName ++ "_" ++ ts ++ ".md"
      let hasClient := xaiHasClient apiKey
      let response := xaiSubmitPrompt hasClient net
      ⟨0, some (outputFile, xaiSavedContent response promptName tsFmt), true,
        if hasClient then some xaiRequestModel else none⟩

/-- `main` of `ollama_prompt_submitter.py`.  With `--list-models` the model
catalog is printed (or, on any exception, an error message is printed) and
`main` returns — status 0, nothing read, nothing written, no submission, in
both branches.  Otherwise: locate the prompt, then inside `try`: construct
the submitter (which may pull the model), read the prompt, submit, save;
any exception there is caught and turned into `sys.exit(1)`. -/
def ollamaMain (args : OllamaArgs) (daemon : Except String (List ModelInfo))
    (pullOk : Bool) (files : List String) (sel : Option Int) (_promptContent : String)
    (net : Except String (Option String)) (ts tsFmt : String) : RunResult :=
  if args.listModels then
    match daemon with
    | .ok _ => ⟨0, none, false, none⟩
    | .error _ => ⟨0, none, false, none⟩
  else
    match (ollamaFindPromptFile files args.prompt sel).outcome with
    | .exited c => ⟨c, none, false, none⟩
    | .found path =>
        if (ollamaInit args.model daemon pullOk).ok then
          let promptName := fileStem path
          let outputFile :=
            match args.output with
            | some o => o
            | none => "reports/ollama_" ++ promptName ++ "_" ++ ts ++ ".md"
          let response := ollamaSubmitPrompt net
          ⟨0, some (outputFile, ollamaSavedContent args.model response promptName tsFmt), true,
            some args.model⟩
        else ⟨1, none, false, none⟩

/-! ## Helper lemmas -/

theorem noNl_append (a b : String) (ha : Char.ofNat 10 ∉ a.data)
    (hb : Char.ofNat 10 ∉ b.data) : Char.ofNat 10 ∉ (a ++ b).data := by
  rw [String.data_append]
  simp only [List.mem_append]
  tauto

/-- C1: for every response text, prompt name and timestamp — single-line
values, as a line-oriented header presupposes — the file content produced by
`save_response` begins with the line `---`, contains a `prompt:` line whose
value equals the supplied prompt name and a `submitted_at:` line whose value
equals the supplied timestamp, and after the closing `---` of the header
there is exactly one blank line followed by the response text byte-for-byte,
in all three backend variants. -/
theorem C1_save_response_format (response promptName submissionTime model : String)
    (hn : Char.ofNat 10 ∉ promptName.data) (ht : Char.ofNat 10 ∉ submissionTime.data) :
    (beginsDashes (geminiSavedContent response promptName submissionTime) ∧
      isLine ("prompt: " ++ promptName) (geminiSavedContent response promptName submissionTime) ∧
      isLine ("submitted_at: " ++ submissionTime)
        (geminiSavedContent response promptName submissionTime) ∧
      closesWithBody (geminiSavedContent response promptName submissionTime) response) ∧
    (beginsDashes (xaiSavedContent response promptName submissionTime) ∧
      isLine ("prompt: " ++ promptName) (xaiSavedContent response promptName submissionTime) ∧
      isLine ("submitted_at: " ++ submissionTime)
        (xaiSavedContent response promptName submissionTime) ∧
      closesWithBody (xaiSavedContent response promptName submissionTime) response) ∧
    (beginsDashes (ollamaSavedContent model response promptName submissionTime) ∧
      isLine ("prompt: " ++ promptName)
        (ollamaSavedContent model response promptName submissionTime) ∧
      isLine ("submitted_at: " ++ submissionTime)
        (ollamaSavedContent model response promptName submissionTime) ∧
      closesWithBody (ollamaSavedContent model response promptName submissionTime) response) := by
  have hp : Char.ofNat 10 ∉ ("prompt: " ++ promptName).data :=
    noNl_append _ _ (by decide) hn
  have hs : Char.ofNat 10 ∉ ("submitted_at: " ++ submissionTime).data :=
    noNl_append _ _ (by decide) ht
  refine ⟨⟨?_, ?_, ?_, ?_⟩, ⟨?_, ?_, ?_, ?_⟩, ⟨?_, ?_, ?_, ?_⟩⟩
  · exact ⟨"prompt: " ++ promptName ++ "\n" ++ "submitted_at: " ++ submissionTime ++ "\n"
      ++ "model: " ++ geminiHeaderModel ++ "\n" ++ "---\n\n" ++ response,
      by simp only [geminiSavedContent, geminiMetadata, String.append_assoc]⟩
  · exact ⟨hp, "---\n",
      "submitted_at: " ++ submissionTime ++ "\n" ++ "model: " ++ geminiHeaderModel ++ "\n"
        ++ "---\n\n" ++ response,
      by simp only [geminiSavedContent, geminiMetadata, String.append_assoc],
      Or.inr ⟨"---", by decide⟩⟩
  · exact ⟨hs, "---\n" ++ "prompt: " ++ promptName ++ "\n",
      "model: " ++ geminiHeaderModel ++ "\n" ++ "---\n\n" ++ response,
      by simp only [geminiSavedContent, geminiMetadata, String.append_assoc],
      Or.inr ⟨"---\n" ++ "prompt: " ++ promptName,
        by simp only [String.append_assoc]⟩⟩
  · exact ⟨"---\n" ++ "prompt: " ++ promptName ++ "\n" ++ "submitted_at: " ++ submissionTime
      ++ "\n" ++ "model: " ++ geminiHeaderModel ++ "\n",
      by simp only [geminiSavedContent, geminiMetadata, String.append_assoc],
      Or.inr ⟨"---\n" ++ "prompt: " ++ promptName ++ "\n" ++ "submitted_at: "
        ++ submissionTime ++ "\n" ++ "model: " ++ geminiHeaderModel,
        by simp only [String.append_assoc]⟩⟩
  · exact ⟨"prompt: " ++ promptName ++ "\n" ++ "submitted_at: " ++ submissionTime ++ "\n"
      ++ "---\n\n" ++ response,
      by simp only [xaiSavedContent, xaiMetadata, String.append_assoc]⟩
  · exact ⟨hp, "---\n",
      "submitted_at: " ++ submissionTime ++ "\n" ++ "---\n\n" ++ response,
      by simp only [xaiSavedContent, xaiMetadata, String.append_assoc],
      Or.inr ⟨"---", by decide⟩⟩
  · exact ⟨hs, "---\n" ++ "prompt: " ++ promptName ++ "\n",
      "---\n\n" ++ response,
      by simp only [xaiSavedContent, xaiMetadata, String.append_assoc],
      Or.inr ⟨"---\n" ++ "prompt: " ++ promptName,
        by simp only [String.append_assoc]⟩⟩
  · exact ⟨"---\n" ++ "prompt: " ++ promptName ++ "\n" ++ "submitted_at: " ++ submissionTime
      ++ "\n",
      by simp only [xaiSavedContent, xaiMetadata, String.append_assoc],
      Or.inr ⟨"---\n" ++ "prompt: " ++ promptName ++ "\n" ++ "submitted_at: "
        ++ submissionTime,
        by simp only [String.append_assoc]⟩⟩
  · exact ⟨"model: " ++ model ++ "\n" ++ "prompt: " ++ promptName ++ "\n" ++ "submitted_at: "
      ++ submissionTime ++ "\n" ++ "---\n\n" ++ response,
      by simp only [ollamaSavedContent, ollamaMetadata, String.append_assoc]⟩
  · exact ⟨hp, "---\n" ++ "model: " ++ model ++ "\n",
      "submitted_at: " ++ submissionTime ++ "\n" ++ "---\n\n" ++ response,
      by simp only [ollamaSavedContent, ollamaMetadata, String.append_assoc],
      Or.inr ⟨"---\n" ++ "model: " ++ model,
        by simp only [String.append_assoc]⟩⟩
  · exact ⟨hs, "---\n" ++ "model: " ++ model ++ "\n" ++ "prompt: " ++ promptName ++ "\n",
      "---\n\n" ++ response,
      by simp only [ollamaSavedContent, ollamaMetadata, String.append_assoc],
      Or.inr ⟨"---\n" ++ "model: " ++ model ++ "\n" ++ "prompt: " ++ promptName,
        by simp only [String.append_assoc]⟩⟩
  · exact ⟨"---\n" ++ "model: " ++ model ++ "\n" ++ "prompt: " ++ promptName ++ "\n"
      ++ "submitted_at: " ++ submissionTime ++ "\n",
      by simp only [ollamaSavedContent, ollamaMetadata, String.append_assoc],
      Or.inr ⟨"---\n" ++ "model: " ++ model ++ "\n" ++ "prompt: " ++ promptName ++ "\n"
        ++ "submitted_at: " ++ submissionTime,
        by simp only [String.append_assoc]⟩⟩

theorem C1_save_response_format_witness :
    Char.ofNat 10 ∉ "p".data ∧ Char.ofNat 10 ∉ "t".data ∧
    ((beginsDashes (geminiSavedContent "r" "p" "t") ∧
        isLine ("prompt: " ++ "p") (geminiSavedContent "r" "p" "t") ∧
        isLine ("submitted_at: " ++ "t") (geminiSavedContent "r" "p" "t") ∧
        closesWithBody (geminiSavedContent "r" "p" "t") "r") ∧
      (beginsDashes (xaiSavedContent "r" "p" "t") ∧
        isLine ("prompt: " ++ "p") (xaiSavedContent "r" "p" "t") ∧
        isLine ("submitted_at: " ++ "t") (xaiSavedContent "r" "p" "t") ∧
        closesWithBody (xaiSavedContent "r" "p" "t") "r") ∧
      (beginsDashes (ollamaSavedContent "m" "r" "p" "t") ∧
        isLine ("prompt: " ++ "p") (ollamaSavedContent "m" "r" "p" "t") ∧
        isLine ("submitted_at: " ++ "t") (ollamaSavedContent "m" "r" "p" "t") ∧
        closesWithBody (ollamaSavedContent "m" "r" "p" "t") "r")) :=
  ⟨by decide, by decide, C1_save_response_format "r" "p" "t" "m" (by decide) (by decide)⟩

/-- C2: an exception raised by the network call inside `submit_prompt` is
caught there: `submit_prompt` returns a markdown heading plus a code block
embedding the error detail instead of propagating, and the pipeline then
writes the output file containing that artifact and finishes with exit
status 0 (shown for the Gemini and Ollama variants, the two call sites the
claim cites). -/
theorem C2_submission_error_artifact
    (e : String) (gargs : GeminiArgs) (oargs : OllamaArgs) (apiKey : Option String)
    (clientInitOk : Bool) (files : List String) (sel : Option Int)
    (promptContent : String) (ts tsFmt gpath opath : String)
    (daemon : Except String (List ModelInfo)) (pullOk : Bool)
    (hkey : geminiHasClient apiKey clientInitOk = true)
    (hgfind : (geminiFindPromptFile files gargs.prompt sel).outcome = .found gpath)
    (hlist : oargs.listModels = false)
    (hofind : (ollamaFindPromptFile files oargs.prompt sel).outcome = .found opath)
    (hinit : (ollamaInit oargs.model daemon pullOk).ok = true) :
    geminiSubmitPrompt true (.error e) = "# Gemini API Error\n\n```\n" ++ e ++ "\n```" ∧
    ollamaSubmitPrompt (.error e) =
      "# Ollama API Error\n\n```\n" ++ ("Error calling Ollama API: " ++ e) ++ "\n```" ∧
    (∃ out, geminiMain gargs apiKey clientInitOk files sel promptContent (.error e) ts tsFmt =
      ⟨0, some (out, geminiSavedContent ("# Gemini API Error\n\n```\n" ++ e ++ "\n```")
          (fileStem gpath) tsFmt), true, some gargs.model⟩) ∧
    (∃ out, ollamaMain oargs daemon pullOk files sel promptContent (.error e) ts tsFmt =
      ⟨0, some (out, ollamaSavedContent oargs.model
          ("# Ollama API Error\n\n```\n" ++ ("Error calling Ollama API: " ++ e) ++ "\n```")
          (fileStem opath) tsFmt), true, some oargs.model⟩) := by
  refine ⟨rfl, rfl, ?_, ?_⟩
  · refine ⟨match gargs.output with
      | some o => o
      | none => "reports/gemini_" ++ fileStem gpath ++ "_" ++ ts ++ ".md", ?_⟩
    simp only [geminiMain, hgfind, hkey, geminiSubmitPrompt, if_true]
  · refine ⟨match oargs.output with
      | some o => o
      | none => "reports/ollama_" ++ fileStem opath ++ "_" ++ ts ++ ".md", ?_⟩
    simp only [ollamaMain, hlist, hofind, hinit, ollamaSubmitPrompt, Bool.false_eq_true,
      if_false, if_true]

theorem C2_submission_error_artifact_witness :
    geminiHasClient (some "k") true = true ∧
    (geminiFindPromptFile ["demo.txt"] (some "demo") none).outcome = .found "prompts/demo.txt" ∧
    (⟨some "demo", none, "m1", false⟩ : OllamaArgs).listModels = false ∧
    (ollamaFindPromptFile ["demo.txt"] (some "demo") none).outcome = .found "prompts/demo.txt" ∧
    (ollamaInit "m1" (.ok [⟨some "m1", none⟩]) true).ok = true ∧
    (geminiSubmitPrompt true (.error "boom") =
        "# Gemini API Error\n\n```\n" ++ "boom" ++ "\n```" ∧
      ollamaSubmitPrompt (.error "boom") =
        "# Ollama API Error\n\n```\n" ++ ("Error calling Ollama API: " ++ "boom") ++ "\n```" ∧
      (∃ out, geminiMain ⟨some "demo", none, "g"⟩ (some "k") true ["demo.txt"] none "Hello"
          (.error "boom") "20250101_000000" "2025-01-01 00:00:00" =
        ⟨0, some (out, geminiSavedContent ("# Gemini API Error\n\n```\n" ++ "boom" ++ "\n```")
            (fileStem "prompts/demo.txt") "2025-01-01 00:00:00"), true, some "g"⟩) ∧
      (∃ out, ollamaMain ⟨some "demo", none, "m1", false⟩ (.ok [⟨some "m1", none⟩]) true
          ["demo.txt"] none "Hello" (.error "boom") "20250101_000000" "2025-01-01 00:00:00" =
        ⟨0, some (out, ollamaSavedContent "m1"
            ("# Ollama API Error\n\n```\n" ++ ("Error calling Ollama API: " ++ "boom") ++ "\n```")
            (fileStem "prompts/demo.txt") "2025-01-01 00:00:00"), true, some "m1"⟩)) :=
  ⟨by decide, by decide, rfl, by decide, by decide,
    C2_submission_error_artifact "boom" ⟨some "demo", none, "g"⟩ ⟨some "demo", none, "m1", false⟩
      (some "k") true ["demo.txt"] none "Hello" "20250101_000000" "2025-01-01 00:00:00"
      "prompts/demo.txt" "prompts/demo.txt" (.ok [⟨some "m1", none⟩]) true
      (by decide) (by decide) rfl (by decide) (by decide)⟩

/-- C3 counterexample: the claim that every cloud/local variant accepts
`--model` — "in particular the CloudB (xAI) variant" — is false: the xAI
argument parser registers no `--model` flag (while the Gemini and Ollama
parsers do), and an xAI submission always goes out with the hard-coded model
`grok-3-beta`, here shown on a concrete invocation. -/
theorem C3_xai_model_flag_counterexample :
    "--model" ∉ xaiArgOptions ∧
    "--model" ∈ geminiArgOptions ∧ "--model" ∈ ollamaArgOptions ∧
    (xaiMain ⟨some "demo", none⟩ (some "k") ["demo.txt"] none "Hello" (.ok "resp")
        "20250101_000000" "2025-01-01 00:00:00").submittedModel = some "grok-3-beta" := by
  refine ⟨by decide, by decide, by decide, ?_⟩
  rfl

/-- C3 amended: supplying `--model <id>` overrides the model used for the
submission in the Gemini and Ollama variants; the xAI variant exposes no
`--model` option and always submits with its fixed model `grok-3-beta`. -/
theorem C3_model_flag_amended
    (m : String) (gargs : GeminiArgs) (oargs : OllamaArgs) (xargs : XaiArgs)
    (apiKey : Option String) (clientInitOk : Bool) (files : List String) (sel : Option Int)
    (pc : String) (gnet xnet : Except String String) (onet : Except String (Option String))
    (daemon : Except String (List ModelInfo)) (pullOk : Bool) (ts tsFmt gpath xpath opath : String)
    (hgm : gargs.model = m) (hom : oargs.model = m)
    (hkey : geminiHasClient apiKey clientInitOk = true)
    (hxkey : xaiHasClient apiKey = true)
    (hgfind : (geminiFindPromptFile files gargs.prompt sel).outcome = .found gpath)
    (hxfind : (xaiFindPromptFile files xargs.prompt sel).outcome = .found xpath)
    (hlist : oargs.listModels = false)
    (hofind : (ollamaFindPromptFile files oargs.prompt sel).outcome = .found opath)
    (hinit : (ollamaInit oargs.model daemon pullOk).ok = true) :
    "--model" ∈ geminiArgOptions ∧ "--model" ∈ ollamaArgOptions ∧ "--model" ∉ xaiArgOptions ∧
    (geminiMain gargs apiKey clientInitOk files sel pc gnet ts tsFmt).submittedModel = some m ∧
    (ollamaMain oargs daemon pullOk files sel pc onet ts tsFmt).submittedModel = some m ∧
    (xaiMain xargs apiKey files sel pc xnet ts tsFmt).submittedModel = some xaiRequestModel := by
  refine ⟨by decide, by decide, by decide, ?_, ?_, ?_⟩
  · simp only [geminiMain, hgfind, hkey, if_true]
    rw [hgm]
  · simp only [ollamaMain, hlist, hofind, hinit, Bool.false_eq_true, if_false, if_true]
    rw [hom]
  · simp only [xaiMain, hxfind, hxkey, if_true]

theorem C3_model_flag_amended_witness :
    (⟨some "demo", none, "my-model"⟩ : GeminiArgs).model = "my-model" ∧
    (⟨some "demo", none, "my-model", false⟩ : OllamaArgs).model = "my-model" ∧
    geminiHasClient (some "k") true = true ∧
    xaiHasClient (some "k") = true ∧
    (geminiFindPromptFile ["demo.txt"] (some "demo") none).outcome = .found "prompts/demo.txt" ∧
    (xaiFindPromptFile ["demo.txt"] (some "demo") none).outcome = .found "prompts/demo.txt" ∧
    (⟨some "demo", none, "my-model", false⟩ : OllamaArgs).listModels = false ∧
    (ollamaFindPromptFile ["demo.txt"] (some "demo") none).outcome = .found "prompts/demo.txt" ∧
    (ollamaInit "my-model" (.ok [⟨some "my-model", none⟩]) true).ok = true ∧
    ("--model" ∈ geminiArgOptions ∧ "--model" ∈ ollamaArgOptions ∧ "--model" ∉ xaiArgOptions ∧
      (geminiMain ⟨some "demo", none, "my-model"⟩ (some "k") true ["demo.txt"] none "Hello"
        (.ok "resp") "20250101_000000" "2025-01-01 00:00:00").submittedModel = some "my-model" ∧
      (ollamaMain ⟨some "demo", none, "my-model", false⟩ (.ok [⟨some "my-model", none⟩]) true
        ["demo.txt"] none "Hello" (.ok (some "resp")) "20250101_000000"
        "2025-01-01 00:00:00").submittedModel = some "my-model" ∧
      (xaiMain ⟨some "demo", none⟩ (some "k") ["demo.txt"] none "Hello" (.ok "resp")
        "20250101_000000" "2025-01-01 00:00:00").submittedModel = some xaiRequestModel) :=
  ⟨rfl, rfl, by decide, by decide, by decide, by decide, rfl, by decide, by decide,
    C3_model_flag_amended "my-model" ⟨some "demo", none, "my-model"⟩
      ⟨some "demo", none, "my-model", false⟩ ⟨some "demo", none⟩ (some "k") true
      ["demo.txt"] none "Hello" (.ok "resp") (.ok "resp") (.ok (some "resp"))
      (.ok [⟨some "my-model", none⟩]) true "20250101_000000" "2025-01-01 00:00:00"
      "prompts/demo.txt" "prompts/demo.txt" "prompts/demo.txt"
      rfl rfl (by decide) (by decide) (by decide) (by decide) rfl (by decide) (by decide)⟩

/-- C4: in interactive selection over a non-empty prompt list (N files), an
operator input parsing as an integer `i` with `1 ≤ i ≤ N` returns the i-th
listed file; an out-of-range integer, or a non-numeric input (`int()` raising
`ValueError`, modelled by `sel = none`), makes `find_prompt_file` exit with
status 1 — non-zero, and no retry: a single input is consumed.  Shown for the
Gemini and the Ollama variant. -/
theorem C4_interactive_selection (files : List String)
    (hN : 1 ≤ (listedPrompts files).length) :
    (∀ i : Int, 1 ≤ i → i ≤ ((listedPrompts files).length : Int) →
      (geminiFindPromptFile files none (some i)).outcome =
        .found ((listedPrompts files).getD (i - 1).toNat "") ∧
      (ollamaFindPromptFile files none (some i)).outcome =
        .found ((listedPrompts files).getD (i - 1).toNat "")) ∧
    (∀ i : Int, i < 1 ∨ ((listedPrompts files).length : Int) < i →
      (geminiFindPromptFile files none (some i)).outcome = .exited 1 ∧
      (ollamaFindPromptFile files none (some i)).outcome = .exited 1) ∧
    ((geminiFindPromptFile files none none).outcome = .exited 1 ∧
      (ollamaFindPromptFile files none none).outcome = .exited 1) := by
  have hE : (listedPrompts files).isEmpty = false := by
    cases h : listedPrompts files
    · rw [h] at hN; simp at hN
    · rfl
  refine ⟨?_, ?_, ?_⟩
  · intro i h1 h2
    constructor <;>
    · simp only [geminiFindPromptFile, ollamaFindPromptFile, findPromptCore, interactiveSelect,
        hE, Bool.false_eq_true, if_false]
      split
      next => rfl
      next h => exact absurd ⟨by omega, by omega⟩ h
  · intro i hd
    constructor <;>
    · simp only [geminiFindPromptFile, ollamaFindPromptFile, findPromptCore, interactiveSelect,
        hE, Bool.false_eq_true, if_false]
      split
      next h =>
        obtain ⟨ha, hb⟩ := h
        rcases hd with hd | hd <;> omega
      next => rfl
  · constructor <;>
    · simp only [geminiFindPromptFile, ollamaFindPromptFile, findPromptCore, interactiveSelect,
        hE, Bool.false_eq_true, if_false]

theorem C4_interactive_selection_witness :
    1 ≤ (listedPrompts ["a.txt", "b.txt"]).length ∧
    (geminiFindPromptFile ["a.txt", "b.txt"] none (some 2)).outcome =
      .found ((listedPrompts ["a.txt", "b.txt"]).getD ((2 : Int) - 1).toNat "") ∧
    (ollamaFindPromptFile ["a.txt", "b.txt"] none (some 3)).outcome = .exited 1 ∧
    (geminiFindPromptFile ["a.txt", "b.txt"] none none).outcome = .exited 1 :=
  ⟨by decide,
    ((C4_interactive_selection ["a.txt", "b.txt"] (by decide)).1 2 (by decide) (by decide)).1,
    ((C4_interactive_selection ["a.txt", "b.txt"] (by decide)).2.1 3 (Or.inr (by decide))).2,
    ((C4_interactive_selection ["a.txt", "b.txt"] (by decide)).2.2).1⟩

/-- C5: for both cloud variants, an absent API credential downgrades the
client to simulation mode: `submit_prompt` returns the fixed simulation
string (containing the substring `Simulation`) whatever the network oracle
would have answered, and the pipeline still writes an output file and ends
with exit status 0. -/
theorem C5_missing_credential_simulation
    (gargs : GeminiArgs) (xargs : XaiArgs) (clientInitOk : Bool)
    (files : List String) (sel : Option Int) (pc : String)
    (gnet xnet : Except String String) (ts tsFmt gpath xpath : String)
    (hgfind : (geminiFindPromptFile files gargs.prompt sel).outcome = .found gpath)
    (hxfind : (xaiFindPromptFile files xargs.prompt sel).outcome = .found xpath) :
    geminiSubmitPrompt (geminiHasClient none clientInitOk) gnet = geminiSimResponse ∧
    xaiSubmitPrompt (xaiHasClient none) xnet = xaiSimResponse ∧
    hasSubstr "Simulation" geminiSimResponse ∧
    hasSubstr "Simulation" xaiSimResponse ∧
    (∃ out, geminiMain gargs none clientInitOk files sel pc gnet ts tsFmt =
      ⟨0, some (out, geminiSavedContent geminiSimResponse (fileStem gpath) tsFmt),
        true, none⟩) ∧
    (∃ out, xaiMain xargs none files sel pc xnet ts tsFmt =
      ⟨0, some (out, xaiSavedContent xaiSimResponse (fileStem xpath) tsFmt),
        true, none⟩) := by
  refine ⟨rfl, rfl,
    ⟨"# Gemini Response (",
      ")\n\nThis is a simulated response because the Gemini API client was not available.",
      by decide⟩,
    ⟨"# xAI Response (",
      ")\n\nThis is a simulated response because the xAI API client was not available.",
      by decide⟩, ?_, ?_⟩
  · refine ⟨match gargs.output with
      | some o => o
      | none => "reports/gemini_" ++ fileStem gpath ++ "_" ++ ts ++ ".md", ?_⟩
    simp only [geminiMain, hgfind, geminiHasClient, pyTruthy, Bool.false_and,
      Bool.false_eq_true, if_false, geminiSubmitPrompt]
  · refine ⟨match xargs.output with
      | some o => o
      | none => "reports/xai_" ++ fileStem xpath ++ "_" ++ ts ++ ".md", ?_⟩
    simp only [xaiMain, hxfind, xaiHasClient, pyTruthy, Bool.false_eq_true, if_false,
      xaiSubmitPrompt]

theorem C5_missing_credential_simulation_witness :
    (geminiFindPromptFile ["demo.txt"] (some "demo") none).outcome = .found "prompts/demo.txt" ∧
    (xaiFindPromptFile ["demo.txt"] (some "demo") none).outcome = .found "prompts/demo.txt" ∧
    (geminiSubmitPrompt (geminiHasClient none true) (.ok "r") = geminiSimResponse ∧
      xaiSubmitPrompt (xaiHasClient none) (.ok "r") = xaiSimResponse ∧
      hasSubstr "Simulation" geminiSimResponse ∧
      hasSubstr "Simulation" xaiSimResponse ∧
      (∃ out, geminiMain ⟨some "demo", none, "g"⟩ none true ["demo.txt"] none "Hi" (.ok "r")
          "20250101_000000" "2025-01-01 00:00:00" =
        ⟨0, some (out, geminiSavedContent geminiSimResponse (fileStem "prompts/demo.txt")
            "2025-01-01 00:00:00"), true, none⟩) ∧
      (∃ out, xaiMain ⟨some "demo", none⟩ none ["demo.txt"] none "Hi" (.ok "r")
          "20250101_000000" "2025-01-01 00:00:00" =
        ⟨0, some (out, xaiSavedContent xaiSimResponse (fileStem "prompts/demo.txt")
            "2025-01-01 00:00:00"), true, none⟩)) :=
  ⟨by decide, by decide,
    C5_missing_credential_simulation ⟨some "demo", none, "g"⟩ ⟨some "demo", none⟩ true
      ["demo.txt"] none "Hi" (.ok "r") (.ok "r") "20250101_000000" "2025-01-01 00:00:00"
      "prompts/demo.txt" "prompts/demo.txt" (by decide) (by decide)⟩

theorem findPromptCore_code (files : List String) (n : Option String) (sel : Option Int) :
    (∃ p, findPromptCore files n sel = .found p) ∨ findPromptCore files n sel = .exited 1 := by
  unfold findPromptCore interactiveSelect
  rcases n with _ | name
  · dsimp only
    split
    · exact Or.inr rfl
    · rcases sel with _ | i
      · exact Or.inr rfl
      · dsimp only
        split
        · exact Or.inl ⟨_, rfl⟩
        · exact Or.inr rfl
  · dsimp only
    split
    · split
      · exact Or.inr rfl
      · rcases sel with _ | i
        · exact Or.inr rfl
        · dsimp only
          split
          · exact Or.inl ⟨_, rfl⟩
          · exact Or.inr rfl
    · split
      · exact Or.inl ⟨_, rfl⟩
      · exact Or.inr rfl

/-- C6: for the Ollama variant, when `ollama.list()` raises during
construction (daemon unreachable) the constructor re-raises with no
simulation fallback (`ok = false`, and no pull is even attempted), and the
whole run — whatever the other inputs — reads no prompt file content, writes
no output file, and exits with status 1, which is non-zero. -/
theorem C6_daemon_unreachable_fatal
    (args : OllamaArgs) (e : String) (pullOk : Bool) (files : List String)
    (sel : Option Int) (pc : String) (net : Except String (Option String))
    (ts tsFmt : String) (hlist : args.listModels = false) :
    ollamaInit args.model (.error e) pullOk = ⟨false, false⟩ ∧
    ollamaMain args (.error e) pullOk files sel pc net ts tsFmt = ⟨1, none, false, none⟩ ∧
    (1 : Nat) ≠ 0 := by
  refine ⟨rfl, ?_, one_ne_zero⟩
  simp only [ollamaMain, hlist, Bool.false_eq_true, if_false, ollamaFindPromptFile]
  rcases findPromptCore_code files args.prompt sel with ⟨p, hp⟩ | hp
  · rw [hp]; rfl
  · rw [hp]

theorem C6_daemon_unreachable_fatal_witness :
    (⟨some "demo", none, "m1", false⟩ : OllamaArgs).listModels = false ∧
    (ollamaInit "m1" (.error "connection refused") true = ⟨false, false⟩ ∧
      ollamaMain ⟨some "demo", none, "m1", false⟩ (.error "connection refused") true
        ["demo.txt"] none "Hi" (.ok (some "r")) "20250101_000000" "2025-01-01 00:00:00" =
        ⟨1, none, false, none⟩ ∧
      (1 : Nat) ≠ 0) :=
  ⟨rfl,
    C6_daemon_unreachable_fatal ⟨some "demo", none, "m1", false⟩ "connection refused" true
      ["demo.txt"] none "Hi" (.ok (some "r")) "20250101_000000" "2025-01-01 00:00:00" rfl⟩

/-- C7: the Ollama constructor attempts `ollama.pull` if and only if no
catalog entry matches the requested model, a match being an entry whose
(effective) name equals the requested model exactly or starts with the
requested model followed by the `:` version-tag separator; when a match
exists no pull happens. -/
theorem C7_pull_iff_model_absent (requested : String) (catalog : List ModelInfo)
    (pullOk : Bool) :
    (ollamaInit requested (.ok catalog) pullOk).pullAttempted = true ↔
      ¬ ∃ mi ∈ catalog, modelInfoName mi = requested ∨
          strLeads (requested ++ ":") (modelInfoName mi) = true := by
  have hfound : ollamaModelFound catalog requested = true ↔
      ∃ mi ∈ catalog, modelInfoName mi = requested ∨
        strLeads (requested ++ ":") (modelInfoName mi) = true := by
    simp [ollamaModelFound, List.any_eq_true, ollamaModelMatches]
  cases h : ollamaModelFound catalog requested
  · simp only [ollamaInit, h, Bool.false_eq_true, if_false]
    refine iff_of_true (by trivial) fun hx => ?_
    rw [hfound.mpr hx] at h
    exact Bool.noConfusion h
  · simp only [ollamaInit, h, if_true]
    refine iff_of_false ?_ (not_not_intro (hfound.mp h))
    simp

/-- C8: only the Ollama variant's `find_prompt_file` ensures the prompts
directory exists (an idempotent `os.makedirs` with `exist_ok=True`) before
listing or resolving; the two cloud variants never create it.  An empty
directory then makes the interactive Ollama path terminate with exit
status 1 (the `NoPromptsAvailable` outcome). -/
theorem C8_prompts_dir_side_effect (files : List String) (promptName : Option String)
    (sel : Option Int) :
    (ollamaFindPromptFile files promptName sel).ensuredPromptsDir = true ∧
    (geminiFindPromptFile files promptName sel).ensuredPromptsDir = false ∧
    (xaiFindPromptFile files promptName sel).ensuredPromptsDir = false ∧
    (listedPrompts files = [] →
      (ollamaFindPromptFile files none sel).outcome = .exited 1) := by
  refine ⟨rfl, rfl, rfl, fun h => ?_⟩
  simp only [ollamaFindPromptFile, findPromptCore, interactiveSelect, h]
  rfl

theorem C8_prompts_dir_side_effect_witness :
    (ollamaFindPromptFile [] none none).ensuredPromptsDir = true ∧
    (geminiFindPromptFile [] none none).ensuredPromptsDir = false ∧
    (xaiFindPromptFile [] none none).ensuredPromptsDir = false ∧
    (ollamaFindPromptFile [] none none).outcome = .exited 1 :=
  ⟨(C8_prompts_dir_side_effect [] none none).1,
    (C8_prompts_dir_side_effect [] none none).2.1,
    (C8_prompts_dir_side_effect [] none none).2.2.1,
    (C8_prompts_dir_side_effect [] none none).2.2.2 rfl⟩

/-- C9: the `model:` header field written by the Gemini variant is always the
constant `gemini-2.5-flash-preview-04-17`: the written file is completely
independent of the `--model` argument `m`, even though the submission itself
goes out with `m` — so the saved header can disagree with the model that
produced the response. -/
theorem C9_gemini_header_model_constant
    (m m' : String) (p o : Option String) (apiKey : Option String) (clientInitOk : Bool)
    (files : List String) (sel : Option Int) (pc : String) (net : Except String String)
    (ts tsFmt gpath : String)
    (hkey : geminiHasClient apiKey clientInitOk = true)
    (hfind : (geminiFindPromptFile files p sel).outcome = .found gpath) :
    (geminiMain ⟨p, o, m⟩ apiKey clientInitOk files sel pc net ts tsFmt).written =
      (geminiMain ⟨p, o, m'⟩ apiKey clientInitOk files sel pc net ts tsFmt).written ∧
    (geminiMain ⟨p, o, m⟩ apiKey clientInitOk files sel pc net ts tsFmt).submittedModel =
      some m ∧
    (∃ out, (geminiMain ⟨p, o, m⟩ apiKey clientInitOk files sel pc net ts tsFmt).written =
      some (out, geminiSavedContent (geminiSubmitPrompt true net) (fileStem gpath) tsFmt)) ∧
    isLine ("model: " ++ geminiHeaderModel)
      (geminiSavedContent (geminiSubmitPrompt true net) (fileStem gpath) tsFmt) := by
  refine ⟨?_, ?_, ?_, ?_⟩
  · simp only [geminiMain, hfind, hkey, if_true]
  · simp only [geminiMain, hfind, hkey, if_true]
  · refine ⟨match o with
      | some out => out
      | none => "reports/gemini_" ++ fileStem gpath ++ "_" ++ ts ++ ".md", ?_⟩
    simp only [geminiMain, hfind, hkey, if_true]
  · exact ⟨by decide,
      "---\n" ++ "prompt: " ++ fileStem gpath ++ "\n" ++ "submitted_at: " ++ tsFmt ++ "\n",
      "---\n\n" ++ geminiSubmitPrompt true net,
      by simp only [geminiSavedContent, geminiMetadata, String.append_assoc],
      Or.inr ⟨"---\n" ++ "prompt: " ++ fileStem gpath ++ "\n" ++ "submitted_at: " ++ tsFmt,
        by simp only [String.append_assoc]⟩⟩

theorem C9_gemini_header_model_constant_witness :
    geminiHasClient (some "k") true = true ∧
    (geminiFindPromptFile ["demo.txt"] (some "demo") none).outcome = .found "prompts/demo.txt" ∧
    ((geminiMain ⟨some "demo", none, "other-model"⟩ (some "k") true ["demo.txt"] none "Hi"
        (.ok "resp") "20250101_000000" "2025-01-01 00:00:00").written =
      (geminiMain ⟨some "demo", none, "gemini-2.5-flash-preview-04-17"⟩ (some "k") true
        ["demo.txt"] none "Hi" (.ok "resp") "20250101_000000" "2025-01-01 00:00:00").written ∧
      (geminiMain ⟨some "demo", none, "other-model"⟩ (some "k") true ["demo.txt"] none "Hi"
        (.ok "resp") "20250101_000000" "2025-01-01 00:00:00").submittedModel =
        some "other-model" ∧
      (∃ out, (geminiMain ⟨some "demo", none, "other-model"⟩ (some "k") true ["demo.txt"] none
          "Hi" (.ok "resp") "20250101_000000" "2025-01-01 00:00:00").written =
        some (out, geminiSavedContent (geminiSubmitPrompt true (.ok "resp"))
          (fileStem "prompts/demo.txt") "2025-01-01 00:00:00")) ∧
      isLine ("model: " ++ geminiHeaderModel)
        (geminiSavedContent (geminiSubmitPrompt true (.ok "resp"))
          (fileStem "prompts/demo.txt") "2025-01-01 00:00:00")) :=
  ⟨by decide, by decide,
    C9_gemini_header_model_constant "other-model" "gemini-2.5-flash-preview-04-17"
      (some "demo") none (some "k") true ["demo.txt"] none "Hi" (.ok "resp")
      "20250101_000000" "2025-01-01 00:00:00" "prompts/demo.txt" (by decide) (by decide)⟩

/-- C10: the Ollama variant invoked with `--list-models` ends with exit
status 0 whatever the outcome of the catalog query — an exception from the
daemon is caught and `main` returns normally — and in this mode no prompt
file is read, no submission happens, and no output file is written. -/
theorem C10_list_models_always_exits_zero
    (args : OllamaArgs) (daemon : Except String (List ModelInfo)) (pullOk : Bool)
    (files : List String) (sel : Option Int) (pc : String)
    (net : Except String (Option String)) (ts tsFmt : String)
    (hlist : args.listModels = true) :
    ollamaMain args daemon pullOk files sel pc net ts tsFmt = ⟨0, none, false, none⟩ := by
  simp only [ollamaMain, hlist, if_true]
  cases daemon <;> rfl

theorem C10_list_models_always_exits_zero_witness :
    (⟨none, none, "m1", true⟩ : OllamaArgs).listModels = true ∧
    ollamaMain ⟨none, none, "m1", true⟩ (.error "daemon unreachable") true [] none "Hi"
      (.ok (some "r")) "20250101_000000" "2025-01-01 00:00:00" = ⟨0, none, false, none⟩ :=
  ⟨rfl,
    C10_list_models_always_exits_zero ⟨none, none, "m1", true⟩ (.error "daemon unreachable")
      true [] none "Hi" (.ok (some "r")) "20250101_000000" "2025-01-01 00:00:00" rfl⟩
